import Mathlib

/-!
Shallow embedding of the credential-lifecycle and account-aggregation
subsystem of the factiva-analytics client library
(`src/factiva/analytics/auth/userkey.py` and
`src/factiva/analytics/auth/accountinfo.py`).

The HTTP transport is a boundary collaborator: every embedded operation
takes the remote response it would receive as an explicit argument.  The
Python standard `json.loads` used to decode the delegated-token payload is
likewise passed in as a function argument.  Network requests issued by an
operation are returned as an explicit trace list so that claims about
"no network call is attempted" are statable.
-/

namespace Factiva

/-- JSON values as the Python code handles them after `response.json()`. -/
inductive Json where
  | null
  | str (s : String)
  | num (n : Int)
  | bool (b : Bool)
  | arr (xs : List Json)
  | obj (fields : List (String × Json))

/-- Python-level exceptions that can escape or be caught inside the
embedded code paths. -/
inductive PyExc where
  | typeError
  | keyError
  | indexError
  | attributeError
  | valueError
deriving Repr, DecidableEq

/-- Failure kinds surfaced by this subsystem.  Constructors follow the
spec taxonomy; each corresponds to one raise site in the source:
`validationError` = ValueError for a wrong-length key (userkey.py:48),
`authenticationError` = ValueError / RuntimeError for inactive keys,
401 and 403 responses (userkey.py:54,83; accountinfo.py:151,184,268),
`authorizationError` = ValueError for the limited-access path
(userkey.py:87), `dataFormatError` = AttributeError on response-shape
mismatch (accountinfo.py:149,264), `serviceError` = RuntimeError on other
statuses (accountinfo.py:153,186,270), `configurationError` = ValueError
when no key is resolvable (userkey.py:43), and `uncaught` wraps a raw
Python exception that no handler in this subsystem catches. -/
inductive PyError where
  | configurationError (msg : String)
  | validationError (msg : String)
  | authenticationError (msg : String)
  | authorizationError (msg : String)
  | dataFormatError (msg : String)
  | serviceError (msg : String)
  | uncaught (e : PyExc)

/-- An HTTP response as seen by this subsystem: a status code and the
decoded JSON body. -/
structure HttpResponse where
  status_code : Nat
  body : Json

/-- The network requests the credential lifecycle can issue, for tracing
which calls were attempted. -/
inductive ApiRequest where
  | taxonomy
  | cloudToken
  | account
  | extractions
  | streams
deriving Repr, DecidableEq

/-- Python subscript `v[k]` with a string key: a dict lookup returns the
value or raises KeyError; subscripting None or any non-dict with a string
key raises TypeError. -/
def pySubscript : Json → String → Except PyExc Json
  | Json.obj fields, k =>
      match fields.lookup k with
      | some v => Except.ok v
      | none => Except.error PyExc.keyError
  | _, _ => Except.error PyExc.typeError

/-- A user key (the spec's Credential): the raw secret and the optional
delegated cloud token (`userkey.py:22-23`; class defaults are None). -/
structure UserKey where
  key : String
  cloud_token : Option Json := none

/-- `UserKey.is_active` (userkey.py:95-105): pure predicate on the
taxonomy-endpoint response, 200 means active. -/
def UserKey.is_active (_uk : UserKey) (response : HttpResponse) : Bool :=
  response.status_code == 200

/-- The nested attribute chain
`response.json()['data']['attributes']['streaming_credentials']`
from userkey.py:85. -/
def streamingCredentialsOf (body : Json) : Except PyExc Json :=
  (pySubscript body "data").bind (fun d =>
    (pySubscript d "attributes").bind (fun a =>
      pySubscript a "streaming_credentials"))

/-- `UserKey.get_cloud_token` (userkey.py:57-92).  A 401 raises the
authentication failure; the nested attribute chain is wrapped in a
`try/except TypeError` so only a TypeError becomes the limited-access
AuthorizationError while a KeyError escapes uncaught; a null
`streaming_credentials` leaves `cloud_token` untouched and still returns
True; a non-null value is decoded with `json.loads` (passed in as
`loads`, with decode failures escaping uncaught). -/
def UserKey.get_cloud_token (loads : String → Except PyExc Json)
    (uk : UserKey) (response : HttpResponse) : Except PyError (UserKey × Bool) :=
  if response.status_code == 401 then
    Except.error (PyError.authenticationError
      "Extraction API authentication failed for given credentials header")
  else
    match streamingCredentialsOf response.body with
    | Except.error PyExc.typeError =>
        Except.error (PyError.authorizationError
          "Unable to get a cloud token for the given key. This account might have limited access.")
    | Except.error e => Except.error (PyError.uncaught e)
    | Except.ok Json.null => Except.ok (uk, true)
    | Except.ok (Json.str s) =>
        match loads s with
        | Except.ok tok => Except.ok ({ uk with cloud_token := some tok }, true)
        | Except.error e => Except.error (PyError.uncaught e)
    | Except.ok _ => Except.error (PyError.uncaught PyExc.typeError)

/-- The argument accepted by the constructors: nothing (environment
lookup), a raw secret string, or an already-constructed UserKey. -/
inductive UserKeyArg where
  | noneArg
  | raw (s : String)
  | cred (u : UserKey)

/-- The tail of `UserKey.__init__` once a key string is in hand
(userkey.py:47-54): length check, remote is-active check, then the cloud
token fetch.  Returns the construction outcome together with the trace of
network requests issued. -/
def UserKey.initWithKey (loads : String → Except PyExc Json) (key : String)
    (taxonomyResp cloudResp : HttpResponse) :
    Except PyError UserKey × List ApiRequest :=
  if key.length ≠ 32 then
    (Except.error (PyError.validationError "Factiva User-Key has the wrong length"), [])
  else
    let uk : UserKey := { key := key, cloud_token := none }
    if uk.is_active taxonomyResp then
      match UserKey.get_cloud_token loads uk cloudResp with
      | Except.ok (uk2, _) => (Except.ok uk2, [ApiRequest.taxonomy, ApiRequest.cloudToken])
      | Except.error e => (Except.error e, [ApiRequest.taxonomy, ApiRequest.cloudToken])
    else
      (Except.error (PyError.authenticationError
        "Factiva User-Key does not exist or inactive."), [ApiRequest.taxonomy])

/-- `UserKey.__init__` (userkey.py:26-54).  A missing argument falls back
to the FACTIVA_USERKEY environment variable (`env`).  Passing an
already-constructed UserKey reaches `len(key)` with a non-sized object,
which raises an uncaught TypeError before any network call. -/
def UserKey.init (loads : String → Except PyExc Json) (arg : UserKeyArg)
    (env : Option String) (taxonomyResp cloudResp : HttpResponse) :
    Except PyError UserKey × List ApiRequest :=
  match arg with
  | UserKeyArg.cred _ => (Except.error (PyError.uncaught PyExc.typeError), [])
  | UserKeyArg.raw s => UserKey.initWithKey loads s taxonomyResp cloudResp
  | UserKeyArg.noneArg =>
      match env with
      | none =>
          (Except.error (PyError.configurationError
            "key parameter not provided and environment variable FACTIVA_USERKEY not set."), [])
      | some s => UserKey.initWithKey loads s taxonomyResp cloudResp

/-- Python truthiness of a possibly-unset attribute holding a JSON value:
None, 0, empty string, empty list and empty dict are falsy. -/
def truthy : Option Json → Bool
  | none => false
  | some Json.null => false
  | some (Json.num n) => n != 0
  | some (Json.str s) => s.length != 0
  | some (Json.bool b) => b
  | some (Json.arr xs) => xs.length != 0
  | some (Json.obj fs) => fs.length != 0

/-- Python subtraction `a - b` on two possibly-unset attributes: defined
for two numbers, a TypeError otherwise (in particular when either side is
None). -/
def pyMinus : Option Json → Option Json → Except PyExc Json
  | some (Json.num a), some (Json.num b) => Except.ok (Json.num (a - b))
  | _, _ => Except.error PyExc.typeError

/-- One entry of the extractions collection after the pandas pipeline of
`AccountInfo.get_extractions`: the renamed `object_id`, the derived
`short_id` and `update_id` columns, and the remaining flattened fields
with the `self` and `type` columns dropped. -/
structure ExtractionEntry where
  object_id : String
  short_id : Option String
  update_id : Option String
  others : List (String × Json)

/-- One entry of the streams collection after the pandas pipeline of
`AccountInfo.get_streams`. -/
structure StreamEntry where
  stream_id : String
  short_id : Option String
  stream_type : Option String
  subscriptions : List String
  n_subscriptions : Nat
  others : List (String × Json)

/-- The account view (`accountinfo.py:22-37`).  Every remotely-loaded
attribute defaults to None (class-level defaults), so unloaded state is
distinct from any loaded value. -/
structure AccountInfo where
  user_key : UserKey
  account_name : Option Json := none
  account_type : Option Json := none
  active_product : Option Json := none
  max_allowed_concurrent_extractions : Option Json := none
  max_allowed_extracted_documents : Option Json := none
  max_allowed_extractions : Option Json := none
  currently_running_extractions : Option Json := none
  total_downloaded_bytes : Option Json := none
  total_extracted_documents : Option Json := none
  total_extractions : Option Json := none
  total_stream_instances : Option Json := none
  total_stream_subscriptions : Option Json := none
  enabled_company_identifiers : Option Json := none
  streams : Option (List StreamEntry) := none
  extractions : Option (List ExtractionEntry) := none

/-- The `remaining_extractions` property (accountinfo.py:94-101): Python
guards only the truthiness of `max_allowed_extractions`, then subtracts
`total_extractions` from it; otherwise it returns None. -/
def AccountInfo.remaining_extractions (a : AccountInfo) : Except PyExc (Option Json) :=
  if truthy a.max_allowed_extractions then
    (pyMinus a.max_allowed_extractions a.total_extractions).map some
  else Except.ok none

/-- The `remaining_documents` property (accountinfo.py:104-111), same
shape over the document counters. -/
def AccountInfo.remaining_documents (a : AccountInfo) : Except PyExc (Option Json) :=
  if truthy a.max_allowed_extracted_documents then
    (pyMinus a.max_allowed_extracted_documents a.total_extracted_documents).map some
  else Except.ok none

/-- `AccountInfo.get_stats` (accountinfo.py:114-155).  On a 200 the
nested attribute bag is copied into the object's fields; any failure in
that chain (the `try` around accountinfo.py:133-147) becomes the
DataFormatError; 403 is the authentication failure; anything else the
ServiceError. -/
def AccountInfo.get_stats (a : AccountInfo) (response : HttpResponse) :
    Except PyError AccountInfo :=
  if response.status_code == 200 then
    match (pySubscript response.body "data").bind (fun d =>
      (pySubscript d "attributes").bind (fun attrs =>
        (pySubscript attrs "name").bind (fun name =>
          (pySubscript d "type").bind (fun dtype =>
            (pySubscript attrs "products").bind (fun products =>
              (pySubscript attrs "max_allowed_concurrent_extracts").bind (fun mace =>
                (pySubscript attrs "max_allowed_document_extracts").bind (fun made =>
                  (pySubscript attrs "max_allowed_extracts").bind (fun mae =>
                    (pySubscript attrs "cnt_curr_ext").bind (fun cce =>
                      (pySubscript attrs "current_downloaded_amount").bind (fun cda =>
                        (pySubscript attrs "tot_document_extracts").bind (fun tde =>
                          (pySubscript attrs "tot_extracts").bind (fun te =>
                            (pySubscript attrs "tot_topics").bind (fun tt =>
                              (pySubscript attrs "tot_subscriptions").bind (fun ts =>
                                (pySubscript attrs "enabled_company_identifiers").map (fun eci =>
                                  { a with
                                    account_name := some name
                                    account_type := some dtype
                                    active_product := some products
                                    max_allowed_concurrent_extractions := some mace
                                    max_allowed_extracted_documents := some made
                                    max_allowed_extractions := some mae
                                    currently_running_extractions := some cce
                                    total_downloaded_bytes := some cda
                                    total_extracted_documents := some tde
                                    total_extractions := some te
                                    total_stream_instances := some tt
                                    total_stream_subscriptions := some ts
                                    enabled_company_identifiers := some eci }))))))))))))))) with
    | Except.ok a2 => Except.ok a2
    | Except.error _ =>
        Except.error (PyError.dataFormatError "Unexpected Account Information API Response.")
  else if response.status_code == 403 then
    Except.error (PyError.authenticationError "Factiva User-Key does not exist or inactive.")
  else
    Except.error (PyError.serviceError "Unexpected Account Information API Error")

/-- One record of the extractions listing after `tools.flatten_dict`
(the flattening helper lives outside src/): the composite `id` plus the
remaining flattened key/value columns such as `self`, `type` and the
attribute fields. -/
structure ExtractionRecord where
  id : String
  others : List (String × Json)

/-- Character-level split on the hyphen, keeping empty segments, written
by structural recursion so that it evaluates inside proofs. -/
def splitSegs : List Char → List (List Char)
  | [] => [[]]
  | c :: rest =>
      let r := splitSegs rest
      if c = '-' then [] :: r
      else
        match r with
        | [] => [[c]]
        | h :: t => (c :: h) :: t

/-- Hyphen split of a composite identifier, as Python `str.split('-')`:
every segment is kept, including empty ones. -/
def segs (s : String) : List String :=
  (splitSegs s.data).map (fun cs => String.mk cs)

/-- Width of the pandas frame produced by
`df['...'].str.split('-', expand=True)`: the maximum segment count over
the whole batch of identifiers. -/
def maxSegWidth (ids : List String) : Nat :=
  (ids.map (fun s => (segs s).length)).foldr max 0

/-- Column `i` of the expanded split frame at one row: the row's own
segment at that index, or None when the row has fewer segments (pandas
pads short rows with None). -/
def colGet (s : String) (i : Nat) : Option String := (segs s)[i]?

/-- Presence of a column in the frame built from a batch of extraction
records: the column exists if any record carries the key. -/
def hasColE (records : List ExtractionRecord) (k : String) : Bool :=
  records.any (fun r => r.others.any (fun p => p.1 == k))

/-- The per-row result of the extraction pipeline in
`accountinfo.py:192-206` at a given batch width: `id` renamed to
`object_id`; `short_id` is split column 4 if the frame is at least 5
columns wide, else None; `update_id` is split column 6 if the frame is at
least 7 columns wide, else None; the `self` and `type` columns dropped. -/
def deriveEntry (width : Nat) (r : ExtractionRecord) : ExtractionEntry :=
  { object_id := r.id
    short_id := if 5 ≤ width then colGet r.id 4 else none
    update_id := if 7 ≤ width then colGet r.id 6 else none
    others := r.others.filter (fun p => p.1 != "self" && p.1 != "type") }

/-- `AccountInfo.get_extractions` (accountinfo.py:158-213).  `respText`
is the raw response text quoted in the ServiceError message; `data` is
the body's data array with each record already flattened.  An empty data
array short-circuits to an empty collection.  Dropping the `self` and
`type` columns raises an uncaught KeyError when either column is absent
from the batch (there is no try/except in this method).  With
`updates = false` only rows with a null `update_id` are kept. -/
def AccountInfo.get_extractions (updates : Bool) (status : Nat)
    (respText : String) (data : List ExtractionRecord) :
    Except PyError (List ExtractionEntry) :=
  if status ≠ 200 then
    if status == 403 then
      Except.error (PyError.authenticationError "Factiva API-Key does not exist or inactive.")
    else
      Except.error (PyError.serviceError ("Unexpected API Error with message: " ++ respText))
  else if data.isEmpty then
    Except.ok []
  else
    let width := maxSegWidth (data.map (fun r => r.id))
    let entries := data.map (deriveEntry width)
    if hasColE data "self" && hasColE data "type" then
      Except.ok (if updates then entries else entries.filter (fun e => e.update_id.isNone))
    else
      Except.error (PyError.uncaught PyExc.keyError)

/-- One nested subscription record inside a stream record's `data`
field; only its composite `id` is consumed by `extract_subscriptions`. -/
structure SubscriptionRecord where
  id : String

/-- One record of the streams listing after `tools.flatten_dict`: the
composite `id`, the nested subscription array surviving as the `data`
column, and the remaining flattened columns such as `self`, `type` and
`job_status`. -/
structure StreamRecord where
  id : String
  data : List SubscriptionRecord
  others : List (String × Json)

/-- Modelled from the spec: the canonical running-state constant
`const.API_JOB_RUNNING_STATE` from the `common.const` module, which is
not under src/.  Claims do not depend on its exact value. -/
def API_JOB_RUNNING_STATE : String := "JOB_STATE_RUNNING"

/-- Rejoin of the last three hyphen-delimited segments of a composite
subscription id: the value of the f-string at accountinfo.py:247 when the
negative indices are in range. -/
def lastThreeJoin (s : String) : String :=
  String.intercalate "-" ((segs s).drop ((segs s).length - 3))

/-- Column presence over a batch of stream records, as `hasColE`. -/
def hasColS (records : List StreamRecord) (k : String) : Bool :=
  records.any (fun r => r.others.any (fun p => p.1 == k))

/-- Whether `extract_subscriptions` (accountinfo.py:243-249) traverses a
subscription list without an IndexError: every id must have at least 3
hyphen-delimited segments for the negative indices -3, -2, -1. -/
def subsAllOk (subs : List SubscriptionRecord) : Bool :=
  subs.all (fun i => 3 ≤ (segs i.id).length)

/-- The per-row result of the stream pipeline in accountinfo.py:252-259
at a given batch width: `id` renamed to `stream_id`; `short_id` and
`stream_type` from split columns 4 and 2; subscription short ids from the
nested records; the `self`, `type` and `data` columns dropped
(`data` is held apart in this embedding, so only `self` and `type` are
filtered from the remaining columns). -/
def mkStreamEntry (r : StreamRecord) : StreamEntry :=
  { stream_id := r.id
    short_id := colGet r.id 4
    stream_type := colGet r.id 2
    subscriptions := r.data.map (fun i => lastThreeJoin i.id)
    n_subscriptions := r.data.length
    others := r.others.filter (fun p => p.1 != "self" && p.1 != "type") }

/-- Whether a derived stream row passes the `running` filter at
accountinfo.py:262: its `job_status` column equals the canonical running
state (a missing value compares unequal). -/
def jobRunning (e : StreamEntry) : Bool :=
  match e.others.lookup "job_status" with
  | some (Json.str s) => s == API_JOB_RUNNING_STATE
  | _ => false

/-- The body of the `try` block in `AccountInfo.get_streams`
(accountinfo.py:242-262), returning the raw Python exception on any
failure.  On an empty batch the frame has no columns, so
`stream_df['stream_id']` raises KeyError; `ids_df[4]` raises KeyError
when the split frame is under 5 columns wide; `extract_subscriptions`
raises IndexError on a subscription id with under 3 segments; dropping
`self`/`type` raises KeyError when either column is absent; the
`running` filter's `stream_df.job_status` attribute access raises
AttributeError when that column is absent. -/
def get_streams_body (running : Bool) (data : List StreamRecord) :
    Except PyExc (List StreamEntry) :=
  if data.isEmpty then Except.error PyExc.keyError
  else if maxSegWidth (data.map (fun r => r.id)) < 5 then Except.error PyExc.keyError
  else if ¬ data.all (fun r => subsAllOk r.data) then Except.error PyExc.indexError
  else
    let entries := data.map mkStreamEntry
    if hasColS data "self" && hasColS data "type" then
      if running then
        if hasColS data "job_status" then
          Except.ok (entries.filter jobRunning)
        else Except.error PyExc.attributeError
      else Except.ok entries
    else Except.error PyExc.keyError

/-- `AccountInfo.get_streams` (accountinfo.py:216-274).  On a 200 the
whole pipeline runs inside a `try/except Exception`, so any shape failure
becomes the DataFormatError; a 404 yields an empty collection; a 403 the
authentication failure; anything else the ServiceError. -/
def AccountInfo.get_streams (running : Bool) (status : Nat)
    (data : List StreamRecord) : Except PyError (List StreamEntry) :=
  if status == 200 then
    match get_streams_body running data with
    | Except.ok l => Except.ok l
    | Except.error _ =>
        Except.error (PyError.dataFormatError "Unexpected Get Streams API Response.")
  else if status == 404 then Except.ok []
  else if status == 403 then
    Except.error (PyError.authenticationError "Factiva API-Key does not exist or inactive.")
  else
    Except.error (PyError.serviceError "Unexpected Get Streams API Error")

/-- `AccountInfo.__init__` (accountinfo.py:40-91): the argument is always
passed to `UserKey(...)`, then `get_stats`, `get_extractions()` (default
`updates=False`) and `get_streams(running=False)` run in sequence, each
aborting the remainder on failure.  The responses each step would receive
are explicit arguments, and the trace of issued requests is returned. -/
def AccountInfo.init (loads : String → Except PyExc Json) (arg : UserKeyArg)
    (env : Option String) (taxonomyResp cloudResp : HttpResponse)
    (statsResp : HttpResponse)
    (extStatus : Nat) (extText : String) (extData : List ExtractionRecord)
    (strStatus : Nat) (strData : List StreamRecord) :
    Except PyError AccountInfo × List ApiRequest :=
  match UserKey.init loads arg env taxonomyResp cloudResp with
  | (Except.error e, reqs) => (Except.error e, reqs)
  | (Except.ok uk, reqs) =>
      let a0 : AccountInfo := { user_key := uk }
      match a0.get_stats statsResp with
      | Except.error e => (Except.error e, reqs ++ [ApiRequest.account])
      | Except.ok a1 =>
          match AccountInfo.get_extractions false extStatus extText extData with
          | Except.error e => (Except.error e, reqs ++ [ApiRequest.account, ApiRequest.extractions])
          | Except.ok exts =>
              match AccountInfo.get_streams false strStatus strData with
              | Except.error e =>
                  (Except.error e,
                   reqs ++ [ApiRequest.account, ApiRequest.extractions, ApiRequest.streams])
              | Except.ok strs =>
                  (Except.ok { a1 with extractions := some exts, streams := some strs },
                   reqs ++ [ApiRequest.account, ApiRequest.extractions, ApiRequest.streams])

/-! Concrete fixtures used by witnesses and counterexamples. -/

/-- A decoder that maps every payload string to JSON null. -/
def loadsNull : String → Except PyExc Json := fun _ => Except.ok Json.null

/-- A decoder that maps every payload string to an empty JSON object. -/
def loadsEmptyObj : String → Except PyExc Json := fun _ => Except.ok (Json.obj [])

/-- A 200 response with a null body. -/
def resp200null : HttpResponse := { status_code := 200, body := Json.null }

/-- A syntactically valid 32-character key. -/
def k32 : String := "abcd1234abcd1234abcd1234abcd1234"

/-- A token-exchange envelope whose `streaming_credentials` is null. -/
def nullCredsBody : Json :=
  Json.obj [("data", Json.obj [("attributes",
    Json.obj [("streaming_credentials", Json.null)])])]

/-- A token-exchange envelope carrying a JSON-encoded credentials string. -/
def strCredsBody : Json :=
  Json.obj [("data", Json.obj [("attributes",
    Json.obj [("streaming_credentials", Json.str "creds")])])]

/-- An already-constructed credential with a populated token. -/
def ukReady : UserKey := { key := k32, cloud_token := some (Json.obj []) }

/-- Every element of a list of naturals is bounded by its foldr-max. -/
theorem le_foldr_max (l : List Nat) (x : Nat) (hx : x ∈ l) :
    x ≤ l.foldr max 0 := by
  induction l with
  | nil => cases hx
  | cons a t ih =>
      cases hx with
      | head => exact le_max_left _ _
      | tail _ h => exact le_trans (ih h) (le_max_right _ _)

/-- A record's own segment count is bounded by the batch split width. -/
theorem segLen_le_maxSegWidth (data : List ExtractionRecord)
    (r : ExtractionRecord) (h : r ∈ data) :
    (segs r.id).length ≤ maxSegWidth (data.map (fun x => x.id)) := by
  apply le_foldr_max
  exact List.mem_map_of_mem _ (List.mem_map_of_mem _ h)

/-- C1: the claim says AccountSnapshot construction normalizes an
existing, already-constructed Credential into the owned credential and
completes the three fetches.  The code instead passes the credential back
into `UserKey(...)`, whose `len(key)` raises an uncaught TypeError before
any network call, so construction from an existing valid Credential never
succeeds.  This theorem evaluates the embedded constructor at that
failing input. -/
theorem c1_cred_argument_raises_type_error :
    AccountInfo.init loadsNull (UserKeyArg.cred ukReady) none
      resp200null resp200null resp200null 200 "" [] 200 []
      = (Except.error (PyError.uncaught PyExc.typeError), []) := rfl

/-- C2 counterexample: with `maxAllowedExtractions` loaded as 0 and
`totalExtractions` loaded as 0 the claim requires a present
`remainingExtractions` of 0, but the truthiness guard makes the code
return None; and with a truthy maximum but an absent total the claim
requires an absent result, but the subtraction raises TypeError. -/
theorem c2_zero_quota_counterexample :
    (AccountInfo.remaining_extractions
      { user_key := { key := k32 },
        max_allowed_extractions := some (Json.num 0),
        total_extractions := some (Json.num 0) } = Except.ok none)
  ∧ (AccountInfo.remaining_extractions
      { user_key := { key := k32 },
        max_allowed_extractions := some (Json.num 5),
        total_extractions := none } = Except.error PyExc.typeError) :=
  ⟨rfl, rfl⟩

/-- C2 amended: `remainingExtractions` equals
`maxAllowedExtractions − totalExtractions` whenever the maximum is loaded
with a nonzero number and the total is loaded; it is None whenever the
maximum is falsy (absent or zero); the same law holds for
`remainingDocuments` over the document counters. -/
theorem c2_remaining_quota_amended (a : AccountInfo) (m t : Int) :
    (a.max_allowed_extractions = some (Json.num m) → m ≠ 0 →
      a.total_extractions = some (Json.num t) →
      a.remaining_extractions = Except.ok (some (Json.num (m - t))))
  ∧ (truthy a.max_allowed_extractions = false →
      a.remaining_extractions = Except.ok none)
  ∧ (a.max_allowed_extracted_documents = some (Json.num m) → m ≠ 0 →
      a.total_extracted_documents = some (Json.num t) →
      a.remaining_documents = Except.ok (some (Json.num (m - t))))
  ∧ (truthy a.max_allowed_extracted_documents = false →
      a.remaining_documents = Except.ok none) := by
  refine ⟨?_, ?_, ?_, ?_⟩
  · intro h1 hm h2
    simp [AccountInfo.remaining_extractions, h1, h2, truthy, pyMinus, hm, Except.map]
  · intro h
    simp [AccountInfo.remaining_extractions, h]
  · intro h1 hm h2
    simp [AccountInfo.remaining_documents, h1, h2, truthy, pyMinus, hm, Except.map]
  · intro h
    simp [AccountInfo.remaining_documents, h]

/-- C2 witness: the amended law evaluated on an account with extraction
quota 5 of which 3 used, and document quota 10 of which 4 used. -/
theorem c2_remaining_quota_witness :
    (AccountInfo.remaining_extractions
      { user_key := { key := k32 },
        max_allowed_extractions := some (Json.num 5),
        total_extractions := some (Json.num 3),
        max_allowed_extracted_documents := some (Json.num 10),
        total_extracted_documents := some (Json.num 4) }
      = Except.ok (some (Json.num 2)))
  ∧ (AccountInfo.remaining_documents
      { user_key := { key := k32 },
        max_allowed_extractions := some (Json.num 5),
        total_extractions := some (Json.num 3),
        max_allowed_extracted_documents := some (Json.num 10),
        total_extracted_documents := some (Json.num 4) }
      = Except.ok (some (Json.num 6))) :=
  ⟨(c2_remaining_quota_amended _ 5 3).1 rfl (by decide) rfl,
   (c2_remaining_quota_amended _ 10 4).2.2.1 rfl (by decide) rfl⟩

/-- C3 counterexample: a 200 response on the streams endpoint with an
empty data array does not yield an empty collection; the empty frame has
no `stream_id` column, the KeyError is caught by the blanket handler, and
the call fails with the DataFormatError. -/
theorem c3_streams_empty_200_counterexample :
    AccountInfo.get_streams false 200 []
      = Except.error (PyError.dataFormatError "Unexpected Get Streams API Response.") := rfl

/-- C3 amended: a 200 extraction-history response with an empty data
array yields an empty collection, and a 404 on the streams endpoint
yields an empty collection; but a 200 on the streams endpoint with an
empty data array raises DataFormatError instead of yielding an empty
collection. -/
theorem c3_empty_collections_amended (updates running : Bool) (text : String)
    (strData : List StreamRecord) :
    AccountInfo.get_extractions updates 200 text [] = Except.ok []
  ∧ AccountInfo.get_streams running 404 strData = Except.ok []
  ∧ AccountInfo.get_streams running 200 []
      = Except.error (PyError.dataFormatError "Unexpected Get Streams API Response.") :=
  ⟨rfl, rfl, rfl⟩

/-- C4: for every secret whose length is not exactly 32, Credential
construction fails with the ValidationError and the request trace is
empty, so no network call is attempted before the failure. -/
theorem c4_wrong_length_validation_error (loads : String → Except PyExc Json)
    (key : String) (env : Option String) (r1 r2 : HttpResponse)
    (h : key.length ≠ 32) :
    UserKey.init loads (UserKeyArg.raw key) env r1 r2
      = (Except.error (PyError.validationError "Factiva User-Key has the wrong length"),
         []) := by
  simp [UserKey.init, UserKey.initWithKey, h]

/-- C4 witness: the wrong-length law evaluated at the 3-character secret
used by the repository's own test. -/
theorem c4_wrong_length_witness :
    UserKey.init loadsNull (UserKeyArg.raw "abc") none resp200null resp200null
      = (Except.error (PyError.validationError "Factiva User-Key has the wrong length"),
         []) :=
  c4_wrong_length_validation_error loadsNull "abc" none resp200null resp200null (by decide)

/-- C5: for every 32-character secret whose remote is-active check
returns any non-200 status, construction fails with the
AuthenticationError, the trace holds only the taxonomy call (the token
exchange is never attempted), and no credential object is returned, so
`delegatedToken` is never observable. -/
theorem c5_inactive_key_authentication_error (loads : String → Except PyExc Json)
    (key : String) (env : Option String) (r1 r2 : HttpResponse)
    (hlen : key.length = 32) (hst : r1.status_code ≠ 200) :
    UserKey.init loads (UserKeyArg.raw key) env r1 r2
      = (Except.error (PyError.authenticationError
           "Factiva User-Key does not exist or inactive."),
         [ApiRequest.taxonomy]) := by
  simp [UserKey.init, UserKey.initWithKey, hlen, UserKey.is_active, hst]

/-- C5 witness: the inactive-key law evaluated at a 32-character key and
a 403 is-active response. -/
theorem c5_inactive_key_witness :
    UserKey.init loadsNull (UserKeyArg.raw k32) none
      { status_code := 403, body := Json.null } resp200null
      = (Except.error (PyError.authenticationError
           "Factiva User-Key does not exist or inactive."),
         [ApiRequest.taxonomy]) :=
  c5_inactive_key_authentication_error loadsNull k32 none
    { status_code := 403, body := Json.null } resp200null (by decide) (by decide)

/-- C6 counterexample: a 32-character key that passes the is-active check
and receives a token-exchange envelope whose `streaming_credentials` is
null constructs successfully with an absent `delegatedToken`, refuting
the biconditional that every successfully constructed Credential has a
populated token. -/
theorem c6_success_without_token_counterexample :
    (UserKey.init loadsNull (UserKeyArg.raw k32) none resp200null
      { status_code := 200, body := nullCredsBody }).1
      = Except.ok { key := k32, cloud_token := none } := rfl

/-- C6 amended: after a successful construction from a raw secret, the
`cloud_token` is populated if and only if the token-exchange envelope's
`streaming_credentials` was a non-null (string) payload that decoded
successfully; a failed construction returns no credential object at all. -/
theorem c6_token_iff_nonnull_creds_amended (loads : String → Except PyExc Json)
    (key : String) (env : Option String) (r1 r2 : HttpResponse) (uk : UserKey)
    (h : (UserKey.init loads (UserKeyArg.raw key) env r1 r2).1 = Except.ok uk) :
    (∃ tok, uk.cloud_token = some tok) ↔
      (∃ s tok, streamingCredentialsOf r2.body = Except.ok (Json.str s)
        ∧ loads s = Except.ok tok) := by
  simp only [UserKey.init] at h
  by_cases hlen : key.length = 32
  swap
  · exfalso
    simp [UserKey.initWithKey, hlen] at h
  · simp only [UserKey.initWithKey, hlen] at h
    by_cases hact : r1.status_code = 200
    swap
    · exfalso
      simp [UserKey.is_active, hact] at h
    · simp only [UserKey.is_active, hact] at h
      by_cases h401 : r2.status_code = 401
      · exfalso
        simp [UserKey.get_cloud_token, h401] at h
      · rcases hsc : streamingCredentialsOf r2.body with e | v
        · exfalso
          cases e <;> simp [UserKey.get_cloud_token, h401, hsc] at h
        · cases v with
          | null =>
              simp [UserKey.get_cloud_token, h401, hsc] at h
              rw [← h]
              simp [hsc]
          | str s =>
              rcases hl : loads s with e2 | tok
              · exfalso
                simp [UserKey.get_cloud_token, h401, hsc, hl] at h
              · simp [UserKey.get_cloud_token, h401, hsc, hl] at h
                rw [← h]
                constructor
                · intro _
                  exact ⟨s, tok, rfl, hl⟩
                · intro _
                  exact ⟨tok, rfl⟩
          | num n => exfalso; simp [UserKey.get_cloud_token, h401, hsc] at h
          | bool b => exfalso; simp [UserKey.get_cloud_token, h401, hsc] at h
          | arr xs => exfalso; simp [UserKey.get_cloud_token, h401, hsc] at h
          | obj fs => exfalso; simp [UserKey.get_cloud_token, h401, hsc] at h

/-- C6 witness: the amended biconditional evaluated on a successful
construction whose envelope carries a non-null credentials string. -/
theorem c6_token_iff_witness :
    (∃ tok, ({ key := k32, cloud_token := some (Json.obj []) } : UserKey).cloud_token
      = some tok) ↔
      (∃ s tok, streamingCredentialsOf
          ({ status_code := 200, body := strCredsBody } : HttpResponse).body
          = Except.ok (Json.str s)
        ∧ loadsEmptyObj s = Except.ok tok) :=
  c6_token_iff_nonnull_creds_amended loadsEmptyObj k32 none resp200null
    { status_code := 200, body := strCredsBody }
    { key := k32, cloud_token := some (Json.obj []) } rfl

/-- C7 counterexample: a token-exchange response whose body is an empty
object is missing the `data` attribute on the path to
`streaming_credentials`, yet the call does not fail with
AuthorizationError; the dict lookup raises a KeyError that the
TypeError-only handler lets escape. -/
theorem c7_missing_key_counterexample :
    UserKey.get_cloud_token loadsNull ukReady
      { status_code := 200, body := Json.obj [] }
      = Except.error (PyError.uncaught PyExc.keyError) := rfl

/-- C7 amended: a non-401 token-exchange response whose envelope
traversal raises TypeError (a null or otherwise non-dict intermediate on
the attribute path) fails with the limited-access AuthorizationError,
an error kind distinct from the AuthenticationError raised on a 401
response; a missing key on a dict intermediate instead escapes as an
uncaught KeyError. -/
theorem c7_limited_access_amended (loads : String → Except PyExc Json)
    (uk : UserKey) (r r401 : HttpResponse)
    (hst : r.status_code ≠ 401)
    (hchain : streamingCredentialsOf r.body = Except.error PyExc.typeError)
    (h401 : r401.status_code = 401) :
    UserKey.get_cloud_token loads uk r
      = Except.error (PyError.authorizationError
          "Unable to get a cloud token for the given key. This account might have limited access.")
  ∧ UserKey.get_cloud_token loads uk r401
      = Except.error (PyError.authenticationError
          "Extraction API authentication failed for given credentials header") := by
  constructor
  · simp [UserKey.get_cloud_token, hst, hchain]
  · simp [UserKey.get_cloud_token, h401]

/-- C7 witness: the amended law evaluated at an envelope whose `data`
attribute is null and at a 401 response. -/
theorem c7_limited_access_witness :
    UserKey.get_cloud_token loadsNull ukReady
      { status_code := 200, body := Json.obj [("data", Json.null)] }
      = Except.error (PyError.authorizationError
          "Unable to get a cloud token for the given key. This account might have limited access.")
  ∧ UserKey.get_cloud_token loadsNull ukReady
      { status_code := 401, body := Json.null }
      = Except.error (PyError.authenticationError
          "Extraction API authentication failed for given credentials header") :=
  c7_limited_access_amended loadsNull ukReady
    { status_code := 200, body := Json.obj [("data", Json.null)] }
    { status_code := 401, body := Json.null }
    (by decide) rfl rfl

/-- C8: for an extraction record whose composite id has exactly 7
hyphen-delimited segments, the derived entry's `short_id` is the 5th
segment (index 4) and its `update_id` the 7th (index 6); for a record
whose id has only 5 segments, `update_id` is absent and the derived entry
is retained in the result of a fetch with `updates = false`. -/
theorem c8_extraction_id_derivation (status : Nat) (text : String)
    (data : List ExtractionRecord) (r7 r5 : ExtractionRecord)
    (l : List ExtractionEntry)
    (h7 : r7 ∈ data) (hlen7 : (segs r7.id).length = 7)
    (h5 : r5 ∈ data) (hlen5 : (segs r5.id).length = 5)
    (hok : AccountInfo.get_extractions false status text data = Except.ok l) :
    (deriveEntry (maxSegWidth (data.map (fun x => x.id))) r7).short_id
      = (segs r7.id)[4]?
  ∧ (deriveEntry (maxSegWidth (data.map (fun x => x.id))) r7).update_id
      = (segs r7.id)[6]?
  ∧ (deriveEntry (maxSegWidth (data.map (fun x => x.id))) r5).update_id = none
  ∧ deriveEntry (maxSegWidth (data.map (fun x => x.id))) r5 ∈ l := by
  have hw : 7 ≤ maxSegWidth (data.map (fun x => x.id)) := by
    have := segLen_le_maxSegWidth data r7 h7
    omega
  have hw5 : 5 ≤ maxSegWidth (data.map (fun x => x.id)) := by omega
  have hupd5 : (deriveEntry (maxSegWidth (data.map (fun x => x.id))) r5).update_id
      = none := by
    have h6 : (segs r5.id)[6]? = none := by
      apply List.getElem?_eq_none
      omega
    simp [deriveEntry, colGet, h6]
  refine ⟨by simp [deriveEntry, hw5, colGet], by simp [deriveEntry, hw, colGet],
    hupd5, ?_⟩
  unfold AccountInfo.get_extractions at hok
  split at hok
  · split at hok <;> simp at hok
  · split at hok
    · rename_i hemp
      rw [List.isEmpty_iff] at hemp
      subst hemp
      cases h5
    · split at hok
      · simp only [Except.ok.injEq] at hok
        subst hok
        apply List.mem_filter.mpr
        refine ⟨List.mem_map_of_mem _ h5, ?_⟩
        simp [hupd5]
      · simp at hok

/-- C8 witness: the derivation law evaluated on a batch holding one
7-segment id and one 5-segment id. -/
theorem c8_extraction_id_witness :
    (deriveEntry (maxSegWidth (([⟨"a-b-c-d-SHORT-f-UPD", [("self", Json.null), ("type", Json.str "x")]⟩,
        ⟨"a-b-c-d-SH2", [("self", Json.null), ("type", Json.str "x")]⟩] :
        List ExtractionRecord).map (fun x => x.id)))
      ⟨"a-b-c-d-SHORT-f-UPD", [("self", Json.null), ("type", Json.str "x")]⟩).short_id
      = (segs "a-b-c-d-SHORT-f-UPD")[4]?
  ∧ (deriveEntry (maxSegWidth (([⟨"a-b-c-d-SHORT-f-UPD", [("self", Json.null), ("type", Json.str "x")]⟩,
        ⟨"a-b-c-d-SH2", [("self", Json.null), ("type", Json.str "x")]⟩] :
        List ExtractionRecord).map (fun x => x.id)))
      ⟨"a-b-c-d-SHORT-f-UPD", [("self", Json.null), ("type", Json.str "x")]⟩).update_id
      = (segs "a-b-c-d-SHORT-f-UPD")[6]?
  ∧ (deriveEntry (maxSegWidth (([⟨"a-b-c-d-SHORT-f-UPD", [("self", Json.null), ("type", Json.str "x")]⟩,
        ⟨"a-b-c-d-SH2", [("self", Json.null), ("type", Json.str "x")]⟩] :
        List ExtractionRecord).map (fun x => x.id)))
      ⟨"a-b-c-d-SH2", [("self", Json.null), ("type", Json.str "x")]⟩).update_id = none
  ∧ deriveEntry (maxSegWidth (([⟨"a-b-c-d-SHORT-f-UPD", [("self", Json.null), ("type", Json.str "x")]⟩,
        ⟨"a-b-c-d-SH2", [("self", Json.null), ("type", Json.str "x")]⟩] :
        List ExtractionRecord).map (fun x => x.id)))
      ⟨"a-b-c-d-SH2", [("self", Json.null), ("type", Json.str "x")]⟩
      ∈ [deriveEntry (maxSegWidth (([⟨"a-b-c-d-SHORT-f-UPD", [("self", Json.null), ("type", Json.str "x")]⟩,
        ⟨"a-b-c-d-SH2", [("self", Json.null), ("type", Json.str "x")]⟩] :
        List ExtractionRecord).map (fun x => x.id)))
      ⟨"a-b-c-d-SH2", [("self", Json.null), ("type", Json.str "x")]⟩] :=
  c8_extraction_id_derivation 200 ""
    [⟨"a-b-c-d-SHORT-f-UPD", [("self", Json.null), ("type", Json.str "x")]⟩,
     ⟨"a-b-c-d-SH2", [("self", Json.null), ("type", Json.str "x")]⟩]
    ⟨"a-b-c-d-SHORT-f-UPD", [("self", Json.null), ("type", Json.str "x")]⟩
    ⟨"a-b-c-d-SH2", [("self", Json.null), ("type", Json.str "x")]⟩
    _ (List.Mem.head _) (by decide)
    (List.Mem.tail _ (List.Mem.head _)) (by decide) rfl

/-- C9: every entry of a successful stream-history fetch carries, for
each nested subscription record, the short id obtained by rejoining the
last 3 hyphen-delimited segments of that subscription's composite id, and
its `n_subscriptions` equals the number of subscription records of its
source stream record (whose subscription ids all have at least 3
segments). -/
theorem c9_stream_subscription_derivation (running : Bool)
    (data : List StreamRecord) (l : List StreamEntry) (e : StreamEntry)
    (hok : AccountInfo.get_streams running 200 data = Except.ok l)
    (he : e ∈ l) :
    ∃ r ∈ data, e.subscriptions = r.data.map (fun i => lastThreeJoin i.id)
      ∧ e.n_subscriptions = r.data.length
      ∧ subsAllOk r.data = true := by
  unfold AccountInfo.get_streams at hok
  simp only [Nat.reduceBEq, if_true, reduceIte] at hok
  split at hok
  swap
  · simp at hok
  · rename_i l2 heq
    simp only [Except.ok.injEq] at hok
    subst hok
    unfold get_streams_body at heq
    split at heq
    · simp at heq
    · split at heq
      · simp at heq
      · split at heq
        · simp at heq
        · rename_i hsubs
          rw [not_not] at hsubs
          have hmem : e ∈ data.map mkStreamEntry := by
            split at heq
            · split at heq
              · split at heq
                · simp only [Except.ok.injEq] at heq
                  subst heq
                  exact List.mem_of_mem_filter he
                · simp at heq
              · simp only [Except.ok.injEq] at heq
                subst heq
                exact he
            · simp at heq
          rcases List.mem_map.mp hmem with ⟨r, hr, hre⟩
          refine ⟨r, hr, ?_, ?_, ?_⟩
          · rw [← hre]
            simp [mkStreamEntry]
          · rw [← hre]
            simp [mkStreamEntry]
          · exact List.all_eq_true.mp hsubs r hr

/-- C9 witness: the subscription-derivation law evaluated on one stream
record with two nested subscriptions. -/
theorem c9_stream_subscription_witness :
    ∃ r ∈ ([⟨"a-b-stream-d-SHRT", [⟨"x-y-p1-p2-p3"⟩, ⟨"q-w-e-r-t-y"⟩],
        [("self", Json.null), ("type", Json.str "x")]⟩] : List StreamRecord),
      (mkStreamEntry ⟨"a-b-stream-d-SHRT", [⟨"x-y-p1-p2-p3"⟩, ⟨"q-w-e-r-t-y"⟩],
        [("self", Json.null), ("type", Json.str "x")]⟩).subscriptions
        = r.data.map (fun i => lastThreeJoin i.id)
      ∧ (mkStreamEntry ⟨"a-b-stream-d-SHRT", [⟨"x-y-p1-p2-p3"⟩, ⟨"q-w-e-r-t-y"⟩],
        [("self", Json.null), ("type", Json.str "x")]⟩).n_subscriptions
        = r.data.length
      ∧ subsAllOk r.data = true :=
  c9_stream_subscription_derivation false
    [⟨"a-b-stream-d-SHRT", [⟨"x-y-p1-p2-p3"⟩, ⟨"q-w-e-r-t-y"⟩],
      [("self", Json.null), ("type", Json.str "x")]⟩]
    [mkStreamEntry ⟨"a-b-stream-d-SHRT", [⟨"x-y-p1-p2-p3"⟩, ⟨"q-w-e-r-t-y"⟩],
      [("self", Json.null), ("type", Json.str "x")]⟩]
    (mkStreamEntry ⟨"a-b-stream-d-SHRT", [⟨"x-y-p1-p2-p3"⟩, ⟨"q-w-e-r-t-y"⟩],
      [("self", Json.null), ("type", Json.str "x")]⟩)
    rfl (List.Mem.head _)

/-- C10: invoking the token fetch on a credential whose `cloud_token` is
already populated, against a non-401 response whose envelope carries a
null `streaming_credentials`, leaves the stored token unchanged and still
returns true. -/
theorem c10_null_creds_preserves_token (loads : String → Except PyExc Json)
    (uk : UserKey) (r : HttpResponse) (tok : Json)
    (htok : uk.cloud_token = some tok)
    (hst : r.status_code ≠ 401)
    (hnull : streamingCredentialsOf r.body = Except.ok Json.null) :
    UserKey.get_cloud_token loads uk r = Except.ok (uk, true)
  ∧ uk.cloud_token = some tok := by
  refine ⟨?_, htok⟩
  simp [UserKey.get_cloud_token, hst, hnull]

/-- C10 witness: the frame law evaluated on a credential already holding
a token and the null-credentials envelope. -/
theorem c10_null_creds_witness :
    UserKey.get_cloud_token loadsNull ukReady
      { status_code := 200, body := nullCredsBody } = Except.ok (ukReady, true)
  ∧ ukReady.cloud_token = some (Json.obj []) :=
  c10_null_creds_preserves_token loadsNull ukReady
    { status_code := 200, body := nullCredsBody } (Json.obj [])
    rfl (by decide) rfl

end Factiva
